import Mathlib

/-!
Verification of the Ecogai pollution-reporting app against its specification.

The development shallowly embeds the logic of the TypeScript sources:
  * `ApiService`  : the Lambda-variant HTTP client (frontend/src/services/api.ts)
  * `VoiceAIService` : the voice/chat helper (frontend/src/services/voiceAI.ts)
  * `SpotScreen` / `SignupScreen` : the client-side submit handlers
  * `mockDispatch` / `mockServer` : the mock Express backend (backend/README-LAMBDA.md)

Asynchronous calls are embedded as pure functions over an explicit outcome
parameter (the value the awaited promise resolves or rejects with), and the
mutable fields of each class are threaded as explicit state records.  Network
activity is recorded in an explicit trace so that claims of the form
"performs no network call" are expressible.
-/

/- ===================================================================
   Part A: the Lambda-variant HTTP client, frontend/src/services/api.ts
   =================================================================== -/

/-- The mutable fields of the ApiService class (api.ts, lines 117-122).
`baseURL` and `isConnected` are carried for completeness; none of the
methods modelled below writes them. -/
structure ClientState where
  baseURL : String
  authToken : Option String
  userId : Option String
  userEmail : Option String
  isConnected : Bool
deriving Repr, DecidableEq

/-- The envelope returned by every client method
(interface LambdaResponse in api.ts). -/
structure LambdaResponse (T : Type) where
  success : Bool
  data : Option T := none
  error : Option String := none
deriving Repr, DecidableEq

/-- A parsed JSON response body, as the client reads it.
`success` is `some b` exactly when the raw value has a boolean `success`
property (the `typeof jsonData.success` check); `error` and `message`
are `some s` when the property is a string (possibly empty, which
JavaScript treats as falsy); `asData` is the whole JSON value viewed at
the payload type, used when the client wraps a non-Lambda response. -/
structure JsonBody (T : Type) where
  success : Option Bool := none
  data : Option T := none
  error : Option String := none
  message : Option String := none
  asData : T
deriving Repr, DecidableEq

/-- The outcome of one awaited `fetch` followed by `response.json()`:
either the fetch rejects with an exception message, or it resolves with
a status code and a body whose JSON parse may itself reject. -/
inductive FetchOutcome (T : Type) where
  | reject (msg : String)
  | respond (status : Nat) (body : Except String (JsonBody T))
deriving Repr

/-- `response.ok`: the status is in the 2xx range. -/
def statusOk (status : Nat) : Bool :=
  decide (200 ≤ status) && decide (status ≤ 299)

/-- JavaScript `a || b` on an optional string and a default: an absent
or empty string is falsy and falls through to the default. -/
def jsOrString (a : Option String) (dflt : String) : String :=
  match a with
  | none => dflt
  | some s => if s = "" then dflt else s

/-- One outbound HTTP call, as recorded in the network trace. -/
structure NetworkCall where
  method : String
  endpoint : String
deriving Repr, DecidableEq

/-- Result of one client method: the returned envelope, the client state
after the call, and the network calls performed during it. -/
structure CallResult (T : Type) where
  response : LambdaResponse T
  state : ClientState
  calls : List NetworkCall
deriving Repr, DecidableEq

/-- ApiService.request (api.ts lines 200-246).  Builds headers (the
Authorization header from `authToken` does not feed back into the
result and is not tracked), performs the fetch, and normalises the
response into the Lambda envelope.  The method never assigns any field
of the class, so the state is returned unchanged. -/
def ApiService.request (st : ClientState) (endpoint : String) (method : String)
    (outcome : FetchOutcome T) : CallResult T :=
  match outcome with
  | .reject msg =>
      { response := { success := false, error := some msg }
        state := st, calls := [⟨method, endpoint⟩] }
  | .respond status body =>
      match body with
      | .error msg =>
          { response := { success := false, error := some msg }
            state := st, calls := [⟨method, endpoint⟩] }
      | .ok jsonData =>
          if statusOk status then
            match jsonData.success with
            | some b =>
                { response := { success := b, data := jsonData.data, error := jsonData.error }
                  state := st, calls := [⟨method, endpoint⟩] }
            | none =>
                { response := { success := true, data := some jsonData.asData }
                  state := st, calls := [⟨method, endpoint⟩] }
          else
            { response :=
                { success := false
                  error := some (jsOrString jsonData.error
                    (jsOrString jsonData.message
                      ("HTTP error! status: " ++ toString status))) }
              state := st, calls := [⟨method, endpoint⟩] }

/-- ApiService.get: request with method GET.  The request body passed by
post/put is JSON-stringified into the fetch options and does not affect
the returned envelope, so it is not threaded through the embedding. -/
def ApiService.get (st : ClientState) (endpoint : String)
    (outcome : FetchOutcome T) : CallResult T :=
  ApiService.request st endpoint "GET" outcome

/-- ApiService.post: request with method POST. -/
def ApiService.post (st : ClientState) (endpoint : String)
    (outcome : FetchOutcome T) : CallResult T :=
  ApiService.request st endpoint "POST" outcome

/-- ApiService.put: request with method PUT. -/
def ApiService.put (st : ClientState) (endpoint : String)
    (outcome : FetchOutcome T) : CallResult T :=
  ApiService.request st endpoint "PUT" outcome

/-- ApiService.delete: request with method DELETE. -/
def ApiService.delete (st : ClientState) (endpoint : String)
    (outcome : FetchOutcome T) : CallResult T :=
  ApiService.request st endpoint "DELETE" outcome

/-- ApiService.setUserId. -/
def ApiService.setUserId (st : ClientState) (userId : Option String) : ClientState :=
  { st with userId := userId }

/-- ApiService.setUserEmail. -/
def ApiService.setUserEmail (st : ClientState) (email : Option String) : ClientState :=
  { st with userEmail := email }

/-- ApiService.setAuthToken. -/
def ApiService.setAuthToken (st : ClientState) (token : Option String) : ClientState :=
  { st with authToken := token }

/-- Payload of a successful /signup response (interface SignupResponse). -/
structure SignupResponse where
  userId : String
  email : String
  name : String
  profileComplete : Bool
deriving Repr, DecidableEq

/-- Payload of a successful /login response (interface LoginResponse). -/
structure LoginResponse where
  userId : String
  email : String
  name : String
  accessToken : String
  idToken : String
  refreshToken : String
deriving Repr, DecidableEq

/-- ApiService.signup (api.ts lines 278-302): POST /signup, then on
`response.success && response.data` store the userId and email.  The
serialized request body (email, password, name, defaults) does not
affect the client state and is omitted from the embedding. -/
def ApiService.signup (st : ClientState)
    (outcome : FetchOutcome SignupResponse) : CallResult SignupResponse :=
  let r := ApiService.post st "/signup" outcome
  match r.response.success, r.response.data with
  | true, some d =>
      let st2 := ApiService.setUserEmail (ApiService.setUserId r.state (some d.userId)) (some d.email)
      { r with state := st2 }
  | _, _ => r

/-- ApiService.login (api.ts lines 304-316): POST /login, then on
`response.success && response.data` store userId, email and the access
token. -/
def ApiService.login (st : ClientState)
    (outcome : FetchOutcome LoginResponse) : CallResult LoginResponse :=
  let r := ApiService.post st "/login" outcome
  match r.response.success, r.response.data with
  | true, some d =>
      let st2 := ApiService.setUserId r.state (some d.userId)
      let st3 := ApiService.setUserEmail st2 (some d.email)
      let st4 := ApiService.setAuthToken st3 (some d.accessToken)
      { r with state := st4 }
  | _, _ => r

/-- ApiService.logout (api.ts lines 318-323): clears token, id and email. -/
def ApiService.logout (st : ClientState) : ClientState :=
  ApiService.setUserEmail (ApiService.setUserId (ApiService.setAuthToken st none) none) none

/-- Report location as sent by createReport.  Coordinates are JavaScript
numbers that the client only passes through; they are embedded as
integers since no arithmetic is ever performed on them. -/
structure ReportLocation where
  latitude : Int
  longitude : Int
  address : Option String := none
deriving Repr, DecidableEq

/-- Pollution type accepted by createReport. -/
inductive PollutionKind where
  | air | water | noise | waste | soil
deriving Repr, DecidableEq

/-- Severity accepted by createReport. -/
inductive SeverityKind where
  | low | medium | high | critical
deriving Repr, DecidableEq

/-- Argument record of ApiService.createReport. -/
structure CreateReportArgs where
  location : ReportLocation
  pollutionType : PollutionKind
  severity : SeverityKind
  description : Option String := none
  imageBase64 : Option String := none
deriving Repr, DecidableEq

/-- Payload of a /reports response (interface ReportData), with the enum
fields kept as strings as in the TypeScript declaration. -/
structure ReportData where
  reportId : String
  userId : String
  location : ReportLocation
  pollutionType : String
  severity : String
  description : Option String := none
  imageUrl : Option String := none
  status : String
  createdAt : String
  updatedAt : String
deriving Repr, DecidableEq

/-- ApiService.createReport (api.ts lines 392-415): with no stored
userId it returns the "User not logged in" envelope immediately and
performs no network call; otherwise it POSTs /reports. -/
def ApiService.createReport (st : ClientState) (args : CreateReportArgs)
    (outcome : FetchOutcome ReportData) : CallResult ReportData :=
  match st.userId with
  | none =>
      { response := { success := false, error := some "User not logged in" }
        state := st, calls := [] }
  | some _ => ApiService.post st "/reports" outcome

/- Helper lemmas about the client. -/

theorem ApiService.request_state (st : ClientState) (endpoint method : String)
    (outcome : FetchOutcome T) :
    (ApiService.request st endpoint method outcome).state = st := by
  cases outcome with
  | reject msg => rfl
  | respond status body =>
      cases body with
      | error msg => rfl
      | ok jsonData =>
          simp only [ApiService.request]
          split
          · split <;> rfl
          · rfl

theorem jsOrString_ne_empty (a : Option String) (dflt : String) (h : dflt ≠ "") :
    jsOrString a dflt ≠ "" := by
  unfold jsOrString
  cases a with
  | none => exact h
  | some s =>
      by_cases hs : s = ""
      · simp [hs, h]
      · simp [hs]

theorem httpErrorString_ne_empty (status : Nat) :
    ("HTTP error! status: " ++ toString status) ≠ "" := by
  intro h
  have hlen := congrArg String.length h
  have h20 : ("HTTP error! status: " : String).length = 20 := rfl
  have h0 : ("" : String).length = 0 := rfl
  rw [String.length_append, h20, h0] at hlen
  omega

/- ===================================================================
   Claims C1, C2, C3, C9 about the Lambda-variant client
   =================================================================== -/

/-- C1: for every call to the Lambda-variant request method, if the
fetch resolves with a non-2xx HTTP response then the method returns an
envelope with success false and a non-empty error string, and the
stored authToken is unchanged; get/post/put/delete are request with the
corresponding HTTP method.  The hypothesis `hmsg` states the platform
fact that a rejected `response.json()` carries a non-empty exception
message. -/
theorem c1_request_non2xx (T : Type) (st : ClientState) (endpoint method : String)
    (status : Nat) (body : Except String (JsonBody T))
    (hstatus : statusOk status = false)
    (hmsg : ∀ m, body = Except.error m → m ≠ "") :
    (ApiService.request st endpoint method (FetchOutcome.respond status body)).response.success = false ∧
    (∃ s, (ApiService.request st endpoint method (FetchOutcome.respond status body)).response.error = some s ∧ s ≠ "") ∧
    (ApiService.request st endpoint method (FetchOutcome.respond status body)).state.authToken = st.authToken ∧
    (∀ (e : String) (o : FetchOutcome T), ApiService.get st e o = ApiService.request st e "GET" o) ∧
    (∀ (e : String) (o : FetchOutcome T), ApiService.post st e o = ApiService.request st e "POST" o) ∧
    (∀ (e : String) (o : FetchOutcome T), ApiService.put st e o = ApiService.request st e "PUT" o) ∧
    (∀ (e : String) (o : FetchOutcome T), ApiService.delete st e o = ApiService.request st e "DELETE" o) := by
  refine ⟨?_, ?_, ?_, fun e o => rfl, fun e o => rfl, fun e o => rfl, fun e o => rfl⟩
  · cases body with
    | error m => rfl
    | ok jsonData => simp [ApiService.request, hstatus]
  · cases body with
    | error m => exact ⟨m, rfl, hmsg m rfl⟩
    | ok jsonData =>
        simp only [ApiService.request, hstatus, Bool.false_eq_true, if_false]
        exact ⟨_, rfl, jsOrString_ne_empty _ _ (jsOrString_ne_empty _ _ (httpErrorString_ne_empty status))⟩
  · cases body with
    | error m => rfl
    | ok jsonData => simp [ApiService.request, hstatus]

/-- C1 witness: a concrete 500 response with an empty error body. -/
theorem c1_request_non2xx_witness :
    (ApiService.request
        { baseURL := "https://api.example.com", authToken := some "tok"
          userId := some "u1", userEmail := some "e", isConnected := true }
        "/reports" "GET"
        (FetchOutcome.respond 500
          (Except.ok ({ asData := "raw" } : JsonBody String)))).response.success = false :=
  (c1_request_non2xx String
    { baseURL := "https://api.example.com", authToken := some "tok"
      userId := some "u1", userEmail := some "e", isConnected := true }
    "/reports" "GET" 500 (Except.ok { asData := "raw" })
    (by decide)
    (fun m hm => by simp at hm)).1

/-- C2: calling createReport while the stored userId is null returns
exactly the "User not logged in" failure envelope, leaves the state
unchanged and performs no network call. -/
theorem c2_createReport_loggedOut (st : ClientState) (args : CreateReportArgs)
    (outcome : FetchOutcome ReportData) (h : st.userId = none) :
    ApiService.createReport st args outcome =
      { response := { success := false, data := none, error := some "User not logged in" }
        state := st, calls := [] } := by
  unfold ApiService.createReport
  rw [h]

/-- C2 witness: the end-to-end scenario of the spec, with location
(1, 2), pollutionType air, severity high and no active userId. -/
theorem c2_createReport_loggedOut_witness :
    ApiService.createReport
      { baseURL := "https://api.example.com", authToken := none
        userId := none, userEmail := none, isConnected := true }
      { location := { latitude := 1, longitude := 2 }
        pollutionType := PollutionKind.air, severity := SeverityKind.high }
      (FetchOutcome.reject "unreachable") =
      { response := { success := false, data := none, error := some "User not logged in" }
        state :=
          { baseURL := "https://api.example.com", authToken := none
            userId := none, userEmail := none, isConnected := true }
        calls := [] } :=
  c2_createReport_loggedOut _ _ _ rfl

/-- C3: if login receives an HTTP 200 response whose parsed body has a
boolean success field true and a data payload, then after the call the
stored userId is the payload userId and the stored authToken is the
payload accessToken. -/
theorem c3_login_success (st : ClientState) (jsonData : JsonBody LoginResponse)
    (d : LoginResponse)
    (hsucc : jsonData.success = some true) (hdata : jsonData.data = some d) :
    (ApiService.login st (FetchOutcome.respond 200 (Except.ok jsonData))).state.userId = some d.userId ∧
    (ApiService.login st (FetchOutcome.respond 200 (Except.ok jsonData))).state.authToken = some d.accessToken := by
  have h200 : statusOk 200 = true := rfl
  unfold ApiService.login ApiService.post
  simp [ApiService.request, h200, hsucc, hdata,
    ApiService.setUserId, ApiService.setUserEmail, ApiService.setAuthToken]

/-- C3 witness: a concrete successful login response. -/
theorem c3_login_success_witness :
    (ApiService.login
        { baseURL := "https://api.example.com", authToken := none
          userId := none, userEmail := none, isConnected := true }
        (FetchOutcome.respond 200 (Except.ok
          { success := some true
            data := some { userId := "user-1", email := "a@b.c", name := "A"
                           accessToken := "acc", idToken := "id", refreshToken := "ref" }
            asData := { userId := "x", email := "x", name := "x"
                        accessToken := "x", idToken := "x", refreshToken := "x" } }))).state.userId
      = some "user-1" :=
  (c3_login_success _ _
    { userId := "user-1", email := "a@b.c", name := "A"
      accessToken := "acc", idToken := "id", refreshToken := "ref" }
    rfl rfl).1

/-- C9: signup never modifies the stored authToken, whatever the fetch
outcome; and when the POST /signup response is a success with data,
signup does store the userId and email from the payload. -/
theorem c9_signup_authToken_frame (st : ClientState) (outcome : FetchOutcome SignupResponse) :
    (ApiService.signup st outcome).state.authToken = st.authToken ∧
    (∀ d, (ApiService.post st "/signup" outcome).response.success = true →
        (ApiService.post st "/signup" outcome).response.data = some d →
        (ApiService.signup st outcome).state.userId = some d.userId ∧
        (ApiService.signup st outcome).state.userEmail = some d.email) := by
  have hst : (ApiService.post st "/signup" outcome).state = st :=
    ApiService.request_state st "/signup" "POST" outcome
  constructor
  · unfold ApiService.signup
    dsimp only
    split
    · simp [ApiService.setUserEmail, ApiService.setUserId, hst]
    · rw [hst]
  · intro d hsucc hdata
    unfold ApiService.signup
    dsimp only
    rw [hsucc, hdata]
    simp [ApiService.setUserEmail, ApiService.setUserId]

/-- C9 witness: a successful signup stores userId and email but leaves
the previously stored authToken untouched. -/
theorem c9_signup_authToken_frame_witness :
    (ApiService.signup
        { baseURL := "https://api.example.com", authToken := some "old-token"
          userId := none, userEmail := none, isConnected := true }
        (FetchOutcome.respond 200 (Except.ok
          { success := some true
            data := some { userId := "user-9", email := "n@m.o", name := "N", profileComplete := false }
            asData := { userId := "x", email := "x", name := "x", profileComplete := true } }))).state.authToken
      = some "old-token" :=
  (c9_signup_authToken_frame
    { baseURL := "https://api.example.com", authToken := some "old-token"
      userId := none, userEmail := none, isConnected := true }
    (FetchOutcome.respond 200 (Except.ok
      { success := some true
        data := some { userId := "user-9", email := "n@m.o", name := "N", profileComplete := false }
        asData := { userId := "x", email := "x", name := "x", profileComplete := true } }))).1

/- ===================================================================
   Part B: the voice/chat helper, frontend/src/services/voiceAI.ts
   =================================================================== -/

/-- The broadcast state of VoiceAIService (interface VoiceAIState). -/
structure VoiceAIState where
  isListening : Bool
  isProcessing : Bool
  isSpeaking : Bool
  transcript : String
  response : String
  error : Option String
deriving Repr, DecidableEq

/-- The mutable fields of the VoiceAIService class: the state record and
whether the private `recording` field holds a recording object
(non-null).  The listener array is not part of the state; notifications
are reported in each call result instead. -/
structure VoiceAIService where
  recording : Bool
  state : VoiceAIState
deriving Repr, DecidableEq

/-- The service as constructed: no recording, all flags false. -/
def VoiceAIService.init : VoiceAIService :=
  { recording := false
    state := { isListening := false, isProcessing := false, isSpeaking := false
               transcript := "", response := "", error := none } }

/-- Result of one VoiceAIService method call: the returned string (empty
for void methods), the service afterwards, and the state snapshots that
updateState emitted to every subscribed listener, in order. -/
structure VoiceCall where
  ret : String
  service : VoiceAIService
  emitted : List VoiceAIState
deriving Repr, DecidableEq

/-- VoiceAIService.transcribeAudio (voiceAI.ts lines 141-156): the
simulated transcription ignores the audio URI and returns a fixed
transcript. -/
def VoiceAIService.transcribeAudio (audioUri : String) : String :=
  "What is the air quality today?"

/-- VoiceAIService.startListening (voiceAI.ts lines 82-107).  `granted`
is the microphone permission outcome; `startOk` is whether preparing
and starting the recording succeeded.  The `recording` field is
assigned before the awaits that can throw, so it is set even on
failure. -/
def VoiceAIService.startListening (s : VoiceAIService) (granted startOk : Bool) : VoiceCall :=
  if granted then
    let s1 : VoiceAIService := { s with recording := true }
    if startOk then
      let st2 := { s1.state with isListening := true, error := none, transcript := "" }
      { ret := "", service := { s1 with state := st2 }, emitted := [st2] }
    else
      let st2 := { s1.state with error := some "Failed to start recording" }
      { ret := "", service := { s1 with state := st2 }, emitted := [st2] }
  else
    let st2 := { s.state with error := some "Microphone permission denied" }
    { ret := "", service := { s with state := st2 }, emitted := [st2] }

/-- VoiceAIService.stopListening (voiceAI.ts lines 110-138).  With no
active recording it returns the empty string immediately.  Otherwise it
flips to processing, stops the recording (`stopOk` = the await did not
throw; on a throw the recording field keeps its value since the null
assignment comes after the await), transcribes when a URI is available,
and ends with isProcessing false. -/
def VoiceAIService.stopListening (s : VoiceAIService) (stopOk : Bool) (uri : Option String) : VoiceCall :=
  if s.recording then
    let st1 := { s.state with isListening := false, isProcessing := true }
    if stopOk then
      match uri with
      | some u =>
          let transcript := VoiceAIService.transcribeAudio u
          let st2 := { st1 with transcript := transcript, isProcessing := false }
          { ret := transcript, service := { recording := false, state := st2 }, emitted := [st1, st2] }
      | none =>
          let st2 := { st1 with isProcessing := false }
          { ret := "", service := { recording := false, state := st2 }, emitted := [st1, st2] }
    else
      let st2 := { st1 with isProcessing := false, error := some "Failed to process recording" }
      { ret := "", service := { s with state := st2 }, emitted := [st1, st2] }
  else
    { ret := "", service := s, emitted := [] }

/-- First list is a prefix of the second (on characters). -/
def listPre : List Char → List Char → Bool
  | [], _ => true
  | _ :: _, [] => false
  | a :: as, b :: bs => a == b && listPre as bs

/-- First list occurs as a contiguous segment of the second. -/
def listInf (pat s : List Char) : Bool :=
  match s with
  | [] => listPre pat []
  | _ :: rest => listPre pat s || listInf pat rest

/-- JavaScript substring test `s.includes(pat)`, on character lists. -/
def strContains (s pat : String) : Bool :=
  listInf pat.data s.data

/-- JavaScript `s.toLowerCase()` on the ASCII strings involved here:
lowercase every character. -/
def jsToLower (s : String) : String :=
  ⟨s.data.map Char.toLower⟩

/-- The canned air-quality fallback response (voiceAI.ts line 196). -/
def airQualityResponse : String :=
  "Based on current data, the air quality in your area is moderate. The AQI is around 65, which is acceptable but sensitive individuals should limit prolonged outdoor activity. Would you like tips on reducing your exposure?"

/-- VoiceAIService.getFallbackResponse (voiceAI.ts lines 192-212): a
pure keyword match on the lowercased message. -/
def VoiceAIService.getFallbackResponse (message : String) : String :=
  let lowerMessage := jsToLower message
  if strContains lowerMessage "air quality" || strContains lowerMessage "air" then
    airQualityResponse
  else if strContains lowerMessage "pollution" || strContains lowerMessage "hotspot" then
    "I\x27ve detected 3 pollution hotspots near you. The closest one is about 500 meters away, likely from vehicle emissions. I recommend avoiding that route if possible. Would you like me to suggest an alternative path?"
  else if strContains lowerMessage "tip" || strContains lowerMessage "reduce" || strContains lowerMessage "help" then
    "Here are some ways you can help reduce pollution: 1) Use public transport or walk when possible, 2) Reduce energy consumption at home, 3) Report pollution sources through the app, 4) Plant trees or support local green initiatives. Every small action counts!"
  else if strContains lowerMessage "health" || strContains lowerMessage "risk" then
    "Based on current pollution levels and your location, the health risk is low to moderate. I recommend staying hydrated, avoiding strenuous outdoor activities during peak traffic hours, and keeping windows closed if you\x27re near busy roads."
  else
    "I understand you\x27re asking about environmental conditions. The current pollution levels in your area are within acceptable limits. Is there something specific you\x27d like to know about air quality, nearby pollution sources, or ways to help the environment?"

/-- The fields getAIResponse reads off a chat response payload
(`data.response || data.advice || data.message`); each may be absent or
an empty (falsy) string. -/
structure ChatData where
  response : Option String := none
  advice : Option String := none
  message : Option String := none
deriving Repr, DecidableEq

/-- Outcome of the awaited api.sendChatMessage call inside
getAIResponse: the promise rejects, or resolves to a Lambda envelope. -/
inductive ChatOutcome where
  | throw (msg : String)
  | reply (r : LambdaResponse ChatData)
deriving Repr, DecidableEq

/-- VoiceAIService.getAIResponse (voiceAI.ts lines 159-189): sets
processing, calls the chat endpoint, and on success-with-data picks the
first truthy of response/advice/message, falling back to the canned
responder; on a failed envelope or a thrown error it uses the fallback. -/
def VoiceAIService.getAIResponse (s : VoiceAIService) (userMessage : String)
    (outcome : ChatOutcome) : VoiceCall :=
  let st1 := { s.state with isProcessing := true }
  let s1 : VoiceAIService := { s with state := st1 }
  match outcome with
  | .reply r =>
      match r.success, r.data with
      | true, some d =>
          let aiResponse := jsOrString d.response (jsOrString d.advice
            (jsOrString d.message (VoiceAIService.getFallbackResponse userMessage)))
          let st2 := { st1 with response := aiResponse, isProcessing := false }
          { ret := aiResponse, service := { s1 with state := st2 }, emitted := [st1, st2] }
      | _, _ =>
          let fallback := VoiceAIService.getFallbackResponse userMessage
          let st2 := { st1 with response := fallback, isProcessing := false }
          { ret := fallback, service := { s1 with state := st2 }, emitted := [st1, st2] }
  | .throw _ =>
      let fallback := VoiceAIService.getFallbackResponse userMessage
      let st2 := { st1 with response := fallback, isProcessing := false }
      { ret := fallback, service := { s1 with state := st2 }, emitted := [st1, st2] }

/-- VoiceAIService.speak (voiceAI.ts lines 215-245).  `speechAvailable`
is whether the expo-speech native module loaded; `speakOk` is whether
Speech.stop/Speech.speak returned without throwing.  The onDone and
onError callbacks fire after the call completes and are not part of the
atomic call; the spoken text goes to the TTS engine only. -/
def VoiceAIService.speak (s : VoiceAIService) (text : String)
    (speechAvailable speakOk : Bool) : VoiceCall :=
  if speechAvailable then
    let st1 := { s.state with isSpeaking := true }
    let s1 : VoiceAIService := { s with state := st1 }
    if speakOk then
      { ret := "", service := s1, emitted := [st1] }
    else
      let st2 := { st1 with isSpeaking := false }
      { ret := "", service := { s1 with state := st2 }, emitted := [st1, st2] }
  else
    let st1 := { s.state with isSpeaking := false }
    { ret := "", service := { s with state := st1 }, emitted := [st1] }

/-- VoiceAIService.stopSpeaking (voiceAI.ts lines 248-260).  When
Speech.stop throws, the catch block only logs: isSpeaking is NOT
cleared in that case. -/
def VoiceAIService.stopSpeaking (s : VoiceAIService) (speechAvailable stopOk : Bool) : VoiceCall :=
  if speechAvailable then
    if stopOk then
      let st1 := { s.state with isSpeaking := false }
      { ret := "", service := { s with state := st1 }, emitted := [st1] }
    else
      { ret := "", service := s, emitted := [] }
  else
    let st1 := { s.state with isSpeaking := false }
    { ret := "", service := { s with state := st1 }, emitted := [st1] }

/-- One atomic public call on the helper, with its environment
parameters (permission, thrown exceptions, response payloads). -/
inductive VoiceEvent where
  | startListening (granted startOk : Bool)
  | stopListening (stopOk : Bool) (uri : Option String)
  | getAIResponse (userMessage : String) (outcome : ChatOutcome)
  | speak (text : String) (speechAvailable speakOk : Bool)
  | stopSpeaking (speechAvailable stopOk : Bool)
deriving Repr

/-- The service state after one atomic call. -/
def VoiceAIService.step (s : VoiceAIService) : VoiceEvent → VoiceAIService
  | .startListening g ok => (VoiceAIService.startListening s g ok).service
  | .stopListening ok uri => (VoiceAIService.stopListening s ok uri).service
  | .getAIResponse m o => (VoiceAIService.getAIResponse s m o).service
  | .speak t avail ok => (VoiceAIService.speak s t avail ok).service
  | .stopSpeaking avail ok => (VoiceAIService.stopSpeaking s avail ok).service

/-- States reachable from the fresh service by sequences of the five
public calls. -/
inductive VoiceReachable : VoiceAIService → Prop where
  | init : VoiceReachable VoiceAIService.init
  | step {s : VoiceAIService} (e : VoiceEvent) :
      VoiceReachable s → VoiceReachable (VoiceAIService.step s e)

/-- Every atomic call finishes with isProcessing false (each method
either leaves the flag alone or clears it before returning). -/
theorem VoiceAIService.step_isProcessing (s : VoiceAIService) (e : VoiceEvent)
    (h : s.state.isProcessing = false) :
    (VoiceAIService.step s e).state.isProcessing = false := by
  cases e <;>
    simp only [VoiceAIService.step, VoiceAIService.startListening,
      VoiceAIService.stopListening, VoiceAIService.getAIResponse,
      VoiceAIService.speak, VoiceAIService.stopSpeaking] <;>
    (repeat' split) <;>
    (first
      | rfl
      | exact h
      | simp_all)

theorem voiceReachable_isProcessing (s : VoiceAIService) (h : VoiceReachable s) :
    s.state.isProcessing = false := by
  induction h with
  | init => rfl
  | step e _ ih => exact VoiceAIService.step_isProcessing _ e ih

/-- An option is falsy in JavaScript when absent or the empty string. -/
def jsFalsy : Option String → Bool
  | none => true
  | some s => s == ""

theorem jsOrString_falsy (a : Option String) (dflt : String) (h : jsFalsy a = true) :
    jsOrString a dflt = dflt := by
  cases a with
  | none => rfl
  | some s =>
      simp [jsFalsy] at h
      simp [jsOrString, h]

/-- The network path of getAIResponse fails or yields no usable field:
the chat call throws, or the envelope is not a success with data, or
every one of data.response/advice/message is falsy. -/
def chatUnusable : ChatOutcome → Bool
  | .throw _ => true
  | .reply r =>
      !r.success ||
      match r.data with
      | none => true
      | some d => jsFalsy d.response && jsFalsy d.advice && jsFalsy d.message

/- ===================================================================
   Claims C5, C8, C10 about the voice/chat helper
   =================================================================== -/

/-- C5: the fallback responder is a pure deterministic function of the
message; any message whose lowercase form contains "air quality" gets
the canned air-quality response; and getAIResponse returns exactly the
fallback whenever the network path fails or yields no usable field. -/
theorem c5_fallback_responder :
    (∀ m : String, VoiceAIService.getFallbackResponse m = VoiceAIService.getFallbackResponse m) ∧
    (∀ m : String, strContains (jsToLower m) "air quality" = true →
        VoiceAIService.getFallbackResponse m = airQualityResponse) ∧
    (∀ (s : VoiceAIService) (m : String) (outcome : ChatOutcome),
        chatUnusable outcome = true →
        (VoiceAIService.getAIResponse s m outcome).ret = VoiceAIService.getFallbackResponse m) := by
  refine ⟨fun m => rfl, fun m h => ?_, fun s m outcome h => ?_⟩
  · simp [VoiceAIService.getFallbackResponse, h]
  · cases outcome with
    | throw msg => rfl
    | reply r =>
        cases hsucc : r.success with
        | false =>
            cases hdata : r.data <;> simp [VoiceAIService.getAIResponse, hsucc, hdata]
        | true =>
            cases hdata : r.data with
            | none => simp [VoiceAIService.getAIResponse, hsucc, hdata]
            | some d =>
                simp only [chatUnusable, hsucc, hdata, Bool.not_true, Bool.false_or] at h
                have hf := h
                rw [Bool.and_eq_true, Bool.and_eq_true] at hf
                simp [VoiceAIService.getAIResponse, hsucc, hdata,
                  jsOrString_falsy _ _ hf.1.1, jsOrString_falsy _ _ hf.1.2,
                  jsOrString_falsy _ _ hf.2]

/-- C5 witness: the exact message from the spec against a failed
network call. -/
theorem c5_fallback_responder_witness :
    VoiceAIService.getFallbackResponse "What\x27s the air quality today?" = airQualityResponse ∧
    (VoiceAIService.getAIResponse VoiceAIService.init "What\x27s the air quality today?"
        (ChatOutcome.throw "Network request failed")).ret
      = VoiceAIService.getFallbackResponse "What\x27s the air quality today?" :=
  ⟨c5_fallback_responder.2.1 "What\x27s the air quality today?" (by decide),
   c5_fallback_responder.2.2 VoiceAIService.init "What\x27s the air quality today?"
     (ChatOutcome.throw "Network request failed") rfl⟩

/-- The service after startListening (permission granted, recording
started) followed by speak (TTS available, no synchronous throw). -/
def c8OverlapState : VoiceAIService :=
  VoiceAIService.step
    (VoiceAIService.step VoiceAIService.init (VoiceEvent.startListening true true))
    (VoiceEvent.speak "Hello" true true)

/-- C8 counterexample: a state reachable by the public calls in which
isListening and isSpeaking are both true, so the flags are not mutually
exclusive and the helper is not the claimed four-state machine. -/
theorem c8_counterexample :
    VoiceReachable c8OverlapState ∧
    c8OverlapState.state.isListening = true ∧
    c8OverlapState.state.isSpeaking = true :=
  ⟨VoiceReachable.step _ (VoiceReachable.step _ VoiceReachable.init), rfl, rfl⟩

/-- C8 amended: every completed call leaves isProcessing false, so
isProcessing is false in every reachable state; startListening flips
isListening only with microphone permission granted (denied requests
only set the error message); stopListening on an active recording
clears isListening and finishes with isProcessing false; speak with TTS
available sets isSpeaking; stopSpeaking clears it.  Mutual exclusion of
the three flags does NOT hold (see the counterexample): no operation
clears the other flags before setting its own. -/
theorem c8_voice_transitions :
    (∀ s : VoiceAIService, VoiceReachable s → s.state.isProcessing = false) ∧
    (∀ (s : VoiceAIService) (ok : Bool),
        (VoiceAIService.startListening s false ok).service.state =
          { s.state with error := some "Microphone permission denied" }) ∧
    (∀ s : VoiceAIService,
        (VoiceAIService.startListening s true true).service.state.isListening = true) ∧
    (∀ (s : VoiceAIService) (ok : Bool) (uri : Option String), s.recording = true →
        (VoiceAIService.stopListening s ok uri).service.state.isListening = false ∧
        (VoiceAIService.stopListening s ok uri).service.state.isProcessing = false) ∧
    (∀ (s : VoiceAIService) (t : String),
        (VoiceAIService.speak s t true true).service.state.isSpeaking = true) ∧
    (∀ (s : VoiceAIService) (avail : Bool),
        (VoiceAIService.stopSpeaking s avail true).service.state.isSpeaking = false) := by
  refine ⟨voiceReachable_isProcessing, fun s ok => rfl, fun s => rfl, ?_, fun s t => rfl, ?_⟩
  · intro s ok uri h
    unfold VoiceAIService.stopListening
    rw [h]
    constructor <;> simp <;> (repeat' split) <;> rfl
  · intro s avail
    unfold VoiceAIService.stopSpeaking
    split <;> rfl

/-- C8 amended witness: the invariant and the listed transitions at
concrete states. -/
theorem c8_voice_transitions_witness :
    VoiceAIService.init.state.isProcessing = false ∧
    (VoiceAIService.stopListening
        { VoiceAIService.init with recording := true } true
        (some "file:///rec.m4a")).service.state.isListening = false :=
  ⟨c8_voice_transitions.1 VoiceAIService.init VoiceReachable.init,
   (c8_voice_transitions.2.2.2.1 { VoiceAIService.init with recording := true }
     true (some "file:///rec.m4a") rfl).1⟩

/-- C10: stopListening while no recording is active returns the empty
string, performs no state update and notifies no listener: the whole
call result is the unchanged service with an empty notification list. -/
theorem c10_stopListening_idle (s : VoiceAIService) (stopOk : Bool) (uri : Option String)
    (h : s.recording = false) :
    VoiceAIService.stopListening s stopOk uri = { ret := "", service := s, emitted := [] } := by
  unfold VoiceAIService.stopListening
  rw [h]
  simp

/-- C10 witness: the fresh service has no active recording. -/
theorem c10_stopListening_idle_witness :
    VoiceAIService.stopListening VoiceAIService.init true none =
      { ret := "", service := VoiceAIService.init, emitted := [] } :=
  c10_stopListening_idle VoiceAIService.init true none rfl

/- ===================================================================
   Part C: the spot-report screen submit handler (legacy variant of
   SpotScreen.tsx, handleSubmit) using api.uploadSpotImage / createSpot
   =================================================================== -/

/-- Device coordinates obtained from expo-location; pass-through values
embedded as integers since the handler never computes with them. -/
structure Coordinates where
  latitude : Int
  longitude : Int
deriving Repr, DecidableEq

/-- Outcome of the awaited api.uploadSpotImage call: the promise
rejects, or resolves with the uploaded image URL. -/
inductive UploadOutcome where
  | throw (msg : String)
  | ok (url : String)
deriving Repr, DecidableEq

/-- Outcome of the awaited api.createSpot call. -/
inductive CreateSpotOutcome where
  | throw (msg : String)
  | ok
deriving Repr, DecidableEq

/-- Result of handleSubmit: the alert shown (title, message) and the
api methods invoked, in order. -/
structure SubmitResult where
  alert : Option (String × String)
  calls : List String
deriving Repr, DecidableEq

/-- SpotScreen.handleSubmit (legacy spot screen, lines 112-145): with a
null captured image or null location it alerts "Missing photo or
location data" and returns before any network call; otherwise it
uploads the image and then creates the spot, alerting on failure or
success. -/
def SpotScreen.handleSubmit (capturedImage : Option String) (location : Option Coordinates)
    (upload : UploadOutcome) (create : CreateSpotOutcome) : SubmitResult :=
  match capturedImage, location with
  | some _, some _ =>
      match upload with
      | .throw _ =>
          { alert := some ("Error", "Failed to submit report. Please try again.")
            calls := ["uploadSpotImage"] }
      | .ok _ =>
          match create with
          | .throw _ =>
              { alert := some ("Error", "Failed to submit report. Please try again.")
                calls := ["uploadSpotImage", "createSpot"] }
          | .ok =>
              { alert := some ("Success", "Pollution spot reported successfully!")
                calls := ["uploadSpotImage", "createSpot"] }
  | _, _ =>
      { alert := some ("Error", "Missing photo or location data"), calls := [] }

/-- C4: whenever the obtained location is null or the captured image is
null, handleSubmit shows the "Missing photo or location data" alert and
makes no network call (neither uploadSpotImage nor createSpot). -/
theorem c4_handleSubmit_missingData (capturedImage : Option String)
    (location : Option Coordinates) (upload : UploadOutcome) (create : CreateSpotOutcome)
    (h : location = none ∨ capturedImage = none) :
    SpotScreen.handleSubmit capturedImage location upload create =
      { alert := some ("Error", "Missing photo or location data"), calls := [] } := by
  cases h with
  | inl hl => cases capturedImage <;> rw [hl] <;> rfl
  | inr hi => cases location <;> rw [hi] <;> rfl

/-- C4 witness: a captured photo but no location. -/
theorem c4_handleSubmit_missingData_witness :
    SpotScreen.handleSubmit (some "file:///photo.jpg") none
      (UploadOutcome.ok "https://img") CreateSpotOutcome.ok =
      { alert := some ("Error", "Missing photo or location data"), calls := [] } :=
  c4_handleSubmit_missingData (some "file:///photo.jpg") none
    (UploadOutcome.ok "https://img") CreateSpotOutcome.ok (Or.inl rfl)

/- ===================================================================
   Part D: the signup screen OTP step (SignupScreen.tsx)
   =================================================================== -/

/-- Result of handleOtpChange: the new otp array, which input (if any)
receives focus, and the signupData.otp update (made only when every
digit slot is non-empty). -/
structure OtpChange where
  otp : List String
  focusTarget : Option Nat
  signupOtp : Option String
deriving Repr, DecidableEq

/-- SignupScreen.handleOtpChange (SignupScreen.tsx lines 125-139):
writes the value into slot `index`, focuses the next input only when a
value was entered and `index < 3`, and copies the joined code into
signupData when every slot is filled. -/
def SignupScreen.handleOtpChange (otp : List String) (value : String) (index : Nat) : OtpChange :=
  let newOtp := otp.set index value
  { otp := newOtp
    focusTarget := if value != "" && decide (index < 3) then some (index + 1) else none
    signupOtp := if newOtp.all (fun d => d != "") then some (String.join newOtp) else none }

/-- Result of handleSignup at the OTP gate: blocked with an alert, or
proceeding to the verify-otp and signup requests with the joined code. -/
inductive SignupSubmit where
  | blocked (alertTitle alertMessage : String)
  | proceed (otpCode : String)
deriving Repr, DecidableEq

/-- The api calls a handleSignup outcome performs: none when blocked,
verifyOTP then signup when it proceeds. -/
def SignupScreen.submitCalls : SignupSubmit → List String
  | .blocked _ _ => []
  | .proceed _ => ["verifyOTP", "signup"]

/-- SignupScreen.handleSignup, OTP gate (SignupScreen.tsx lines
153-160): joins the otp slots and blocks with an alert unless the code
has length 4; otherwise it proceeds to verify the OTP and create the
account. -/
def SignupScreen.handleSignup (otp : List String) : SignupSubmit :=
  let otpCode := String.join otp
  if otpCode.length != 4 then
    .blocked "Error" "Please enter the complete OTP code"
  else
    .proceed otpCode

/-- C6 counterexample: entering a digit in the fourth OTP input (index
3) does not advance focus, because the auto-advance condition requires
index < 3; the claim that a digit in any of the four inputs advances
focus to the next input fails there. -/
theorem c6_counterexample :
    ¬ (SignupScreen.handleOtpChange ["1", "2", "3", ""] "4" 3).focusTarget = some 4 := by
  decide

/-- C6 amended: entering a digit in any of the FIRST THREE OTP inputs
advances focus to the next input, while the fourth never advances; the
OTP is complete (handleSignup proceeds) exactly when the joined code
has length 4; otherwise submission is blocked with the alert "Please
enter the complete OTP code" and no verify-otp or signup request is
sent. -/
theorem c6_otp_handling :
    (∀ (otp : List String) (value : String) (index : Nat),
        value ≠ "" → index < 3 →
        (SignupScreen.handleOtpChange otp value index).focusTarget = some (index + 1)) ∧
    (∀ (otp : List String) (value : String),
        (SignupScreen.handleOtpChange otp value 3).focusTarget = none) ∧
    (∀ otp : List String,
        SignupScreen.handleSignup otp = SignupSubmit.proceed (String.join otp) ↔
        (String.join otp).length = 4) ∧
    (∀ otp : List String, (String.join otp).length ≠ 4 →
        SignupScreen.handleSignup otp = SignupSubmit.blocked "Error" "Please enter the complete OTP code" ∧
        SignupScreen.submitCalls (SignupScreen.handleSignup otp) = []) := by
  refine ⟨?_, ?_, ?_, ?_⟩
  · intro otp value index hv hi
    simp [SignupScreen.handleOtpChange, hv, hi]
  · intro otp value
    simp [SignupScreen.handleOtpChange]
  · intro otp
    unfold SignupScreen.handleSignup
    constructor
    · intro h
      by_cases hl : (String.join otp).length = 4
      · exact hl
      · rw [if_pos (by simpa using hl)] at h
        exact absurd h (by simp)
    · intro hl
      rw [if_neg (by simp [hl])]
  · intro otp hl
    unfold SignupScreen.handleSignup
    rw [if_pos (by simpa using hl)]
    exact ⟨rfl, rfl⟩

/-- C6 amended witness: a digit in the second input advances focus to
the third, and a 3-digit code blocks submission with no requests. -/
theorem c6_otp_handling_witness :
    (SignupScreen.handleOtpChange ["7", "", "", ""] "3" 1).focusTarget = some 2 ∧
    SignupScreen.handleSignup ["1", "2", "3", ""] =
      SignupSubmit.blocked "Error" "Please enter the complete OTP code" :=
  ⟨c6_otp_handling.1 ["7", "", "", ""] "3" 1 (by decide) (by decide),
   (c6_otp_handling.2.2.2 ["1", "2", "3", ""] (by decide)).1⟩

/- ===================================================================
   Part E: the mock Express backend (backend/README-LAMBDA.md, server
   listing): route table, handlers and the 404 fallback
   =================================================================== -/

/-- HTTP methods used by the mock server routes. -/
inductive HttpMethod where
  | GET | POST | PUT | DELETE
deriving Repr, DecidableEq

/-- A record of the in-memory mock datastore.  Handlers only ever read
the `id` attribute (the find in GET /pollution/spots/:id); the other
JSON attributes of a spot (type, severity, coordinates, description,
imageUrl, createdAt, userId) are carried verbatim as uninterpreted
key/value pairs. -/
structure MockSpot where
  id : String
  payload : List (String × String)
deriving Repr, DecidableEq

/-- The initial mockSpots array (README-LAMBDA.md, pollution routes).
Numeric literals and the start-up timestamp are carried as opaque
strings since no handler computes with them. -/
def mockSpots : List MockSpot :=
  [ { id := "spot-1"
      payload := [("type", "air"), ("severity", "high"), ("latitude", "14.5995"),
                  ("longitude", "120.9842"), ("description", "Heavy smoke from factory"),
                  ("imageUrl", "null"), ("userId", "user-123")] }
  , { id := "spot-2"
      payload := [("type", "land"), ("severity", "medium"), ("latitude", "14.6010"),
                  ("longitude", "120.9860"), ("description", "Garbage dumping site"),
                  ("imageUrl", "null"), ("userId", "user-123")] } ]

/-- An incoming request: method, path, parsed JSON body and query
string, both as uninterpreted key/value pairs. -/
structure MockRequest where
  method : HttpMethod
  path : String
  body : List (String × String) := []
  query : List (String × String) := []
deriving Repr, DecidableEq

/-- The JSON payloads the mock handlers produce, one constructor per
handler, carrying exactly the request-dependent parts.  The 404
fallback body is the object with the error text and the requested
path. -/
inductive MockBody where
  | health (nowIso : String)
  | authSignup (token userId : String) (email phoneNumber : Option String) (nowIso : String)
  | authLogin (token : String) (email : Option String) (nowIso : String)
  | authLogout
  | otpSent
  | otpVerified
  | profileData
  | profileUpdate (body : List (String × String)) (nowIso : String)
  | spotList (spots : List MockSpot)
  | spotItem (spot : MockSpot)
  | spotNotFound
  | uploadedImage (url : String)
  | locationSearch
  | placesSearch
  | placesSuggest
  | reverseGeocode (lat lng : Option String)
  | placeDetails (placeId : String)
  | routeData
  | chatReply (message : String) (nowIso : String)
  | notFound (error : String) (path : String)
deriving Repr, DecidableEq

/-- An HTTP response of the mock server. -/
structure MockResponse where
  status : Nat
  body : MockBody
deriving Repr, DecidableEq

/-- Express `:param` matching for a route `pre:param`: the path starts
with `pre` and the remainder is one non-empty segment. -/
def pathParam (pre path : String) : Option String :=
  if listPre pre.data path.data then
    let rest := path.data.drop pre.data.length
    if rest.isEmpty then none
    else if rest.contains '/' then none
    else some ⟨rest⟩
  else none

/-- The four canned AI chat replies of POST /ai/chat; the handler picks
one with Math.random. -/
def chatResponses : List String :=
  [ "Hello! I\x27m Reiko, your eco-assistant. How can I help you today?"
  , "That\x27s a great question about the environment!"
  , "I can help you report pollution spots in your area."
  , "Climate change is a serious issue. Let\x27s work together to make a difference!" ]

/-- The mock server route table, tried in registration order: `some`
when a registered handler matches (its response plus the datastore
afterwards), `none` when the request falls through to the 404 handler.
`nowMs` stands for Date.now(), `nowIso` for new Date().toISOString(),
and `chatPick` for the Math.random choice of the chat handler. -/
def mockDispatch (db : List MockSpot) (nowMs : Nat) (nowIso : String) (chatPick : Fin 4)
    (req : MockRequest) : Option (MockResponse × List MockSpot) :=
  if req.method = HttpMethod.GET ∧ req.path = "/health" then
    some (⟨200, .health nowIso⟩, db)
  else if req.method = HttpMethod.POST ∧ req.path = "/auth/signup" then
    some (⟨200, .authSignup ("mock-jwt-token-" ++ toString nowMs) ("user-" ++ toString nowMs)
      (req.body.lookup "email") (req.body.lookup "phoneNumber") nowIso⟩, db)
  else if req.method = HttpMethod.POST ∧ req.path = "/auth/login" then
    some (⟨200, .authLogin ("mock-jwt-token-" ++ toString nowMs) (req.body.lookup "email") nowIso⟩, db)
  else if req.method = HttpMethod.POST ∧ req.path = "/auth/logout" then
    some (⟨200, .authLogout⟩, db)
  else if req.method = HttpMethod.POST ∧ req.path = "/auth/send-otp" then
    some (⟨200, .otpSent⟩, db)
  else if req.method = HttpMethod.POST ∧ req.path = "/auth/verify-otp" then
    some (⟨200, .otpVerified⟩, db)
  else if req.method = HttpMethod.GET ∧ req.path = "/user/profile" then
    some (⟨200, .profileData⟩, db)
  else if req.method = HttpMethod.PUT ∧ req.path = "/user/profile" then
    some (⟨200, .profileUpdate req.body nowIso⟩, db)
  else if req.method = HttpMethod.GET ∧ req.path = "/pollution/spots" then
    some (⟨200, .spotList db⟩, db)
  else if req.method = HttpMethod.GET ∧ req.path = "/pollution/spots/user" then
    some (⟨200, .spotList db⟩, db)
  else if req.method = HttpMethod.GET ∧ (pathParam "/pollution/spots/" req.path).isSome = true then
    let spotId := (pathParam "/pollution/spots/" req.path).getD ""
    match db.find? (fun s => s.id == spotId) with
    | some s => some (⟨200, .spotItem s⟩, db)
    | none => some (⟨404, .spotNotFound⟩, db)
  else if req.method = HttpMethod.POST ∧ req.path = "/pollution/spots" then
    let newSpot : MockSpot :=
      { id := "spot-" ++ toString nowMs
        payload := req.body ++ [("createdAt", nowIso), ("userId", "user-123")] }
    some (⟨201, .spotItem newSpot⟩, db ++ [newSpot])
  else if req.method = HttpMethod.POST ∧ req.path = "/upload/image" then
    some (⟨200, .uploadedImage ("https://placeholder.com/uploaded-image-" ++ toString nowMs ++ ".jpg")⟩, db)
  else if req.method = HttpMethod.GET ∧ req.path = "/location/search" then
    some (⟨200, .locationSearch⟩, db)
  else if req.method = HttpMethod.GET ∧ req.path = "/location/places/search" then
    some (⟨200, .placesSearch⟩, db)
  else if req.method = HttpMethod.GET ∧ req.path = "/location/places/suggest" then
    some (⟨200, .placesSuggest⟩, db)
  else if req.method = HttpMethod.GET ∧ req.path = "/location/geocode/reverse" then
    some (⟨200, .reverseGeocode (req.query.lookup "lat") (req.query.lookup "lng")⟩, db)
  else if req.method = HttpMethod.GET ∧ (pathParam "/location/places/" req.path).isSome = true then
    some (⟨200, .placeDetails ((pathParam "/location/places/" req.path).getD "")⟩, db)
  else if req.method = HttpMethod.POST ∧ req.path = "/location/route" then
    some (⟨200, .routeData⟩, db)
  else if req.method = HttpMethod.POST ∧ req.path = "/ai/chat" then
    some (⟨200, .chatReply (chatResponses.getD chatPick.val "") nowIso⟩, db)
  else none

/-- The mock server: a matching registered handler, or the 404 fallback
`app.use` handler returning the error text and the requested path. -/
def mockServer (db : List MockSpot) (nowMs : Nat) (nowIso : String) (chatPick : Fin 4)
    (req : MockRequest) : MockResponse × List MockSpot :=
  match mockDispatch db nowMs nowIso chatPick req with
  | some r => r
  | none => (⟨404, .notFound "Route not found" req.path⟩, db)

/-- Pulling the response out of a successful dispatch equation. -/
theorem mockStatus_of_eq {X : MockResponse × List MockSpot} {resp : MockResponse}
    {db2 : List MockSpot} (h : some X = some (resp, db2)) : resp = X.1 := by
  injection h with h1
  rw [h1]

/-- C7 counterexample: POST /pollution/spots is a registered handler
(the dispatch is some) yet responds with status 201, not 200, so the
claim that every registered handler returns HTTP 200 fails; the unknown
route part is unaffected. -/
theorem c7_counterexample :
    (mockDispatch [] 0 "t0" 0 { method := HttpMethod.POST, path := "/pollution/spots" }).isSome = true ∧
    (mockServer [] 0 "t0" 0 { method := HttpMethod.POST, path := "/pollution/spots" }).1.status = 201 ∧
    (201 : Nat) ≠ 200 := by
  refine ⟨by decide, rfl, by decide⟩

/-- C7 amended: a request matching no registered route gets HTTP 404
with the error/path body; registered handlers validate nothing (any
body is accepted) but do not always return 200: POST /pollution/spots
returns 201 for every request body, GET /pollution/spots/:id responds
with status 404 and the Spot-not-found error body when the id is not in
the datastore, and every registered handler returns 200, 201 or 404. -/
theorem c7_mock_server_statuses :
    (∀ (db : List MockSpot) (nowMs : Nat) (nowIso : String) (chatPick : Fin 4) (req : MockRequest),
        mockDispatch db nowMs nowIso chatPick req = none →
        mockServer db nowMs nowIso chatPick req =
          (⟨404, MockBody.notFound "Route not found" req.path⟩, db)) ∧
    (∀ (db : List MockSpot) (nowMs : Nat) (nowIso : String) (chatPick : Fin 4)
        (body query : List (String × String)),
        (mockServer db nowMs nowIso chatPick
          { method := HttpMethod.POST, path := "/pollution/spots"
            body := body, query := query }).1.status = 201) ∧
    (∀ (db : List MockSpot) (nowMs : Nat) (nowIso : String) (chatPick : Fin 4) (req : MockRequest),
        req.method = HttpMethod.GET →
        (pathParam "/pollution/spots/" req.path).isSome = true →
        req.path ≠ "/pollution/spots/user" →
        db.find? (fun s => s.id == (pathParam "/pollution/spots/" req.path).getD "") = none →
        mockServer db nowMs nowIso chatPick req = (⟨404, MockBody.spotNotFound⟩, db)) ∧
    (∀ (db : List MockSpot) (nowMs : Nat) (nowIso : String) (chatPick : Fin 4) (req : MockRequest)
        (resp : MockResponse) (db2 : List MockSpot),
        mockDispatch db nowMs nowIso chatPick req = some (resp, db2) →
        resp.status = 200 ∨ resp.status = 201 ∨ resp.status = 404) := by
  refine ⟨?_, ?_, ?_, ?_⟩
  · intro db nowMs nowIso chatPick req h
    unfold mockServer
    rw [h]
  · intro db nowMs nowIso chatPick body query
    rfl
  · intro db nowMs nowIso chatPick req hmethod hparam huser hfind
    have hPOST : req.method ≠ HttpMethod.POST := by rw [hmethod]; decide
    have hPUT : req.method ≠ HttpMethod.PUT := by rw [hmethod]; decide
    have hne : ∀ q : String, (pathParam "/pollution/spots/" q).isSome = false → req.path ≠ q := by
      intro q hq e
      rw [e, hq] at hparam
      exact Bool.false_ne_true hparam
    unfold mockServer mockDispatch
    rw [if_neg (fun hc => hne "/health" (by decide) hc.2)]
    rw [if_neg (fun hc => hPOST hc.1)]
    rw [if_neg (fun hc => hPOST hc.1)]
    rw [if_neg (fun hc => hPOST hc.1)]
    rw [if_neg (fun hc => hPOST hc.1)]
    rw [if_neg (fun hc => hPOST hc.1)]
    rw [if_neg (fun hc => hne "/user/profile" (by decide) hc.2)]
    rw [if_neg (fun hc => hPUT hc.1)]
    rw [if_neg (fun hc => hne "/pollution/spots" (by decide) hc.2)]
    rw [if_neg (fun hc => huser hc.2)]
    rw [if_pos ⟨hmethod, hparam⟩]
    dsimp only
    rw [hfind]
  · intro db nowMs nowIso chatPick req resp db2 h
    unfold mockDispatch at h
    by_cases c1 : req.method = HttpMethod.GET ∧ req.path = "/health"
    · rw [if_pos c1] at h
      rw [mockStatus_of_eq h]
      simp
    rw [if_neg c1] at h
    by_cases c2 : req.method = HttpMethod.POST ∧ req.path = "/auth/signup"
    · rw [if_pos c2] at h
      rw [mockStatus_of_eq h]
      simp
    rw [if_neg c2] at h
    by_cases c3 : req.method = HttpMethod.POST ∧ req.path = "/auth/login"
    · rw [if_pos c3] at h
      rw [mockStatus_of_eq h]
      simp
    rw [if_neg c3] at h
    by_cases c4 : req.method = HttpMethod.POST ∧ req.path = "/auth/logout"
    · rw [if_pos c4] at h
      rw [mockStatus_of_eq h]
      simp
    rw [if_neg c4] at h
    by_cases c5 : req.method = HttpMethod.POST ∧ req.path = "/auth/send-otp"
    · rw [if_pos c5] at h
      rw [mockStatus_of_eq h]
      simp
    rw [if_neg c5] at h
    by_cases c6 : req.method = HttpMethod.POST ∧ req.path = "/auth/verify-otp"
    · rw [if_pos c6] at h
      rw [mockStatus_of_eq h]
      simp
    rw [if_neg c6] at h
    by_cases c7 : req.method = HttpMethod.GET ∧ req.path = "/user/profile"
    · rw [if_pos c7] at h
      rw [mockStatus_of_eq h]
      simp
    rw [if_neg c7] at h
    by_cases c8 : req.method = HttpMethod.PUT ∧ req.path = "/user/profile"
    · rw [if_pos c8] at h
      rw [mockStatus_of_eq h]
      simp
    rw [if_neg c8] at h
    by_cases c9 : req.method = HttpMethod.GET ∧ req.path = "/pollution/spots"
    · rw [if_pos c9] at h
      rw [mockStatus_of_eq h]
      simp
    rw [if_neg c9] at h
    by_cases c10 : req.method = HttpMethod.GET ∧ req.path = "/pollution/spots/user"
    · rw [if_pos c10] at h
      rw [mockStatus_of_eq h]
      simp
    rw [if_neg c10] at h
    by_cases c11 : req.method = HttpMethod.GET ∧ (pathParam "/pollution/spots/" req.path).isSome = true
    · rw [if_pos c11] at h
      dsimp only at h
      split at h
      · rw [mockStatus_of_eq h]
        simp
      · rw [mockStatus_of_eq h]
        simp
    rw [if_neg c11] at h
    by_cases c12 : req.method = HttpMethod.POST ∧ req.path = "/pollution/spots"
    · rw [if_pos c12] at h
      dsimp only at h
      rw [mockStatus_of_eq h]
      simp
    rw [if_neg c12] at h
    by_cases c13 : req.method = HttpMethod.POST ∧ req.path = "/upload/image"
    · rw [if_pos c13] at h
      rw [mockStatus_of_eq h]
      simp
    rw [if_neg c13] at h
    by_cases c14 : req.method = HttpMethod.GET ∧ req.path = "/location/search"
    · rw [if_pos c14] at h
      rw [mockStatus_of_eq h]
      simp
    rw [if_neg c14] at h
    by_cases c15 : req.method = HttpMethod.GET ∧ req.path = "/location/places/search"
    · rw [if_pos c15] at h
      rw [mockStatus_of_eq h]
      simp
    rw [if_neg c15] at h
    by_cases c16 : req.method = HttpMethod.GET ∧ req.path = "/location/places/suggest"
    · rw [if_pos c16] at h
      rw [mockStatus_of_eq h]
      simp
    rw [if_neg c16] at h
    by_cases c17 : req.method = HttpMethod.GET ∧ req.path = "/location/geocode/reverse"
    · rw [if_pos c17] at h
      rw [mockStatus_of_eq h]
      simp
    rw [if_neg c17] at h
    by_cases c18 : req.method = HttpMethod.GET ∧ (pathParam "/location/places/" req.path).isSome = true
    · rw [if_pos c18] at h
      rw [mockStatus_of_eq h]
      simp
    rw [if_neg c18] at h
    by_cases c19 : req.method = HttpMethod.POST ∧ req.path = "/location/route"
    · rw [if_pos c19] at h
      rw [mockStatus_of_eq h]
      simp
    rw [if_neg c19] at h
    by_cases c20 : req.method = HttpMethod.POST ∧ req.path = "/ai/chat"
    · rw [if_pos c20] at h
      rw [mockStatus_of_eq h]
      simp
    rw [if_neg c20] at h
    exact absurd h (by simp)

/-- C7 amended witness: an unregistered DELETE route falls to the 404
handler, and looking up an id absent from the initial datastore yields
the full 404 Spot-not-found response from the registered :id handler. -/
theorem c7_mock_server_statuses_witness :
    mockServer mockSpots 5 "2025-01-01T00:00:00.000Z" 2
        { method := HttpMethod.DELETE, path := "/nope" } =
      (⟨404, MockBody.notFound "Route not found" "/nope"⟩, mockSpots) ∧
    mockServer mockSpots 5 "2025-01-01T00:00:00.000Z" 0
        { method := HttpMethod.GET, path := "/pollution/spots/spot-404" } =
      (⟨404, MockBody.spotNotFound⟩, mockSpots) :=
  ⟨c7_mock_server_statuses.1 mockSpots 5 "2025-01-01T00:00:00.000Z" 2
      { method := HttpMethod.DELETE, path := "/nope" } (by decide),
   c7_mock_server_statuses.2.2.1 mockSpots 5 "2025-01-01T00:00:00.000Z" 0
      { method := HttpMethod.GET, path := "/pollution/spots/spot-404" }
      rfl (by decide) (by decide) (by decide)⟩
